import Mathlib

/-!
Verification development for the TLDMotto reaction-role engine
(`src/botto/mixins/reaction_roles.py`).

The handlers of `ReactionRoles` are embedded as pure Lean functions.
Awaited collaborator calls (chat platform, record store, distribution
API) are supplied through explicit environment records; the outbound
actions a handler performs are collected in an explicit effect list;
raised exceptions become an outcome datatype.  The record-store data
model (`botto.storage.beta_testers.model`) and the store adapter
(`botto.storage`) are not part of the sources, so they are modelled
from the specification, as marked on each such definition.
-/

namespace TLDMotto

/-- Modelled from the spec: `RequestStatus` of
`botto.storage.beta_testers.model` (not in the sources); the spec fixes
the status set as PENDING, APPROVED, REJECTED. -/
inductive RequestStatus where
  | PENDING
  | APPROVED
  | REJECTED
deriving DecidableEq, Repr

/-- Modelled from the spec: the `Tester` record of
`botto.storage.beta_testers.model` (not in the sources).  Fields are the
ones the spec lists: chat user id as sole matching key, mutable display
name, optional email, at most one outstanding registration-prompt
message id, and a list of leave-notification message ids.  `id` is the
store's record identifier, assigned on first upsert. -/
structure Tester where
  id : Option String := none
  username : String
  discordId : String
  email : Option String := none
  registrationMessageId : Option String := none
  leaveMessageIds : List String := []
deriving DecidableEq, Repr

/-- Modelled from the spec: the `TestingRequest` record of
`botto.storage.beta_testers.model` (not in the sources).  `reqId` is the
store's record identifier.  A freshly constructed request defaults to
status PENDING (spec: creation produces a PENDING request), no
notification ids, and `removed = false`. -/
structure TestingRequest where
  reqId : Nat := 0
  tester : String
  testerDiscordId : String
  app : String
  serverId : String
  approvalChannelId : Option String := none
  status : RequestStatus := RequestStatus.PENDING
  notificationMessageId : Option String := none
  furtherNotificationMessageIds : List String := []
  removed : Bool := false
deriving DecidableEq, Repr

/-- Modelled from the spec: `testing_request.approved` of
`botto.storage.beta_testers.model` (not in the sources); per the spec the
approval handler records whether the request was already approved. -/
def TestingRequest.approved (r : TestingRequest) : Bool :=
  r.status = RequestStatus.APPROVED

/-- Modelled from the spec: the `App` record — a distribution target
with a beta-group identifier and a display name. -/
structure App where
  id : String
  name : String
  betaGroupId : String
deriving DecidableEq, Repr

/-- A chat message as far as the engine inspects it: its id and the
emoji reactions it currently carries. -/
structure Msg where
  msgId : Nat
  reactions : List String := []
deriving DecidableEq, Repr

/-- Outbound actions a handler performs, in order. -/
inductive Effect where
  | channelSend (text : String)
  | addReaction (msgId : Nat) (emoji : String)
  | removeReaction (msgId : Nat) (emoji : String)
  | dmSend (text : String)
  | addRoles
  | updateRequest (reqId : Nat) (status : RequestStatus)
  | notifSend (reqId : Nat) (isRepeat : Bool)
  | sendRegistration (userId : String)
  | exitNotifSend (channelId : String)
deriving DecidableEq, Repr

/-- Outcome of one handler run: a normal return carrying the Python
return value, a raised `ReactionRoleError`, or an unhandled defect. -/
inductive HRes (α : Type) where
  | ok (a : α)
  | rrErr (msg : String)
  | defect
deriving DecidableEq, Repr

/-! ## Python value model

`get_other_request_messages` (reaction_roles.py:83) filters the stored
further-notification message ids with `int(message_id) != message_id`
where both occurrences are the comprehension variable (the function
parameter of the same name is shadowed).  Stored ids are decimal
strings, so this is a Python `!=` between an `int` and a `str`.  The
fragment is embedded over a small dynamic-value type so that the
comparison keeps Python's cross-type semantics. -/

/-- A Python value as used by the embedded fragment: an int or a str. -/
inductive PyVal where
  | pint (n : Nat)
  | pstr (s : String)
deriving DecidableEq, Repr

/-- Models Python `int()` applied to a non-negative decimal string
(ids are decimal digit strings). -/
def strToNat (s : String) : Nat :=
  s.data.foldl (fun n c => n * 10 + (c.toNat - 48)) 0

/-- Models Python `int(v)` on a value that is an int or a decimal
string. -/
def pyToInt : PyVal → PyVal
  | PyVal.pint n => PyVal.pint n
  | PyVal.pstr s => PyVal.pint (strToNat s)

/-- Models Python `!=`: values of different types (int vs str) are
always unequal. -/
def pyNe : PyVal → PyVal → Bool
  | PyVal.pint a, PyVal.pint b => a ≠ b
  | PyVal.pstr a, PyVal.pstr b => a ≠ b
  | _, _ => true

/-! ## Cross-message synchronizer (reaction_roles.py:47 and 83) -/

/-- Embeds the selection logic of `get_other_request_messages`
(reaction_roles.py:83-100): the ids of the other notification messages
of `req` chosen for fan-out marking, given the id of the message that
triggered the current transition.  The further-notification ids are
filtered by the source's comprehension condition
`int(message_id) != message_id`, in which `message_id` is the
comprehension variable (a stored string id), not the function
parameter; the primary notification id is then appended when it differs
from the triggering id (reaction_roles.py:97). -/
def get_other_request_messages_ids (message_id : Nat)
    (req : TestingRequest) : List Nat :=
  let other :=
    (req.furtherNotificationMessageIds.filter
      (fun mid => pyNe (pyToInt (PyVal.pstr mid)) (PyVal.pstr mid))).map
      strToNat
  let primary := strToNat (req.notificationMessageId.getD "0")
  if primary ≠ message_id then other ++ [primary] else other

/-- Embeds `mark_request_messages_handled` (reaction_roles.py:47-58):
the ids of the messages that receive `reaction`, skipping any message
already carrying `primary_reaction` or `reaction`. -/
def mark_request_messages_handled (messages : List Msg)
    (reaction : String) (primary_reaction : String) : List Effect :=
  (messages.filter
    (fun m => ¬ primary_reaction ∈ m.reactions ∧ ¬ reaction ∈ m.reactions)).map
    (fun m => Effect.addReaction m.msgId reaction)

/-- Embeds `mark_request_message_approved` (reaction_roles.py:61). -/
def mark_request_message_approved (messages : List Msg) : List Effect :=
  mark_request_messages_handled messages "✔️" "✅"

/-- Embeds `mark_request_message_rejected` (reaction_roles.py:64). -/
def mark_request_message_rejected (messages : List Msg) : List Effect :=
  mark_request_messages_handled messages "🚫" "⛔"

/-! ## Store adapter

`BetaTestersStorage` (`botto.storage`) is not part of the sources.  It
is modelled from the spec's Store Adapter contract: tester upsert is
idempotent and keyed by the external chat user id; request listing is
filtered by tester id, app id set, approval status and the removed
flag, in creation order (the handler reuses the listing's first element
as the oldest request); requests are never physically deleted. -/

/-- The state of the external record store: tester records and testing
request records, each list in creation order. -/
structure Store where
  testers : List Tester := []
  requests : List TestingRequest := []
deriving Repr

/-- Modelled from the spec: `find_tester(discord_id=...)` — lookup by
the sole matching key, the external chat user id. -/
def find_tester (s : Store) (uid : String) : Option Tester :=
  s.testers.find? (fun t => t.discordId = uid)

/-- Modelled from the spec: `upsert_tester` — idempotent upsert keyed
by the external chat user id.  An existing record keeps its store id
and is replaced field-wise; a new record is appended and assigned a
store id.  Returns the stored record. -/
def upsert_tester (s : Store) (t : Tester) : Store × Tester :=
  match s.testers.find? (fun u => u.discordId = t.discordId) with
  | some u =>
    let stored := { t with id := u.id }
    ({ s with
        testers := s.testers.map
          (fun v => if v.discordId = t.discordId then stored else v) },
      stored)
  | none =>
    let stored := { t with id := some t.discordId }
    ({ s with testers := s.testers ++ [stored] }, stored)

/-- Modelled from the spec: `list_requests(tester_id, app_ids,
exclude_removed=True)` — the tester's non-removed requests for the
given app set, oldest first. -/
def list_requests (s : Store) (testerId : String) (appIds : List String) :
    List TestingRequest :=
  s.requests.filter
    (fun r => r.testerDiscordId = testerId ∧ r.app ∈ appIds ∧ r.removed = false)

/-- Modelled from the spec: `list_requests(tester_id,
approval_filter=APPROVED, exclude_removed=True)` with no app filter —
the tester's approved, non-removed requests. -/
def list_approved_requests (s : Store) (testerId : String) :
    List TestingRequest :=
  s.requests.filter
    (fun r => r.testerDiscordId = testerId ∧
      r.status = RequestStatus.APPROVED ∧ r.removed = false)

/-- Modelled from the spec: `add_request` — appends a new request
record, assigning it a fresh store id. -/
def add_request (s : Store) (r : TestingRequest) : Store × TestingRequest :=
  let stored := { r with reqId := s.requests.length }
  ({ s with requests := s.requests ++ [stored] }, stored)

/-- Modelled from the spec: `update_request` — replaces the stored
record with the same store id. -/
def update_request (s : Store) (r : TestingRequest) : Store :=
  { s with requests := s.requests.map (fun q => if q.reqId = r.reqId then r else q) }

/-! ## Distribution API (App Store Connect) -/

/-- The distinguished error conditions of the distribution API
(`AppStoreConnectError` and its subclasses, from
`botto.storage.beta_testers.model`, not in the sources; the spec names
the three distinguished conditions and a generic failure). -/
inductive ASCError where
  | apiKeyNotSet
  | betaGroupNotSet
  | invalidAttribute (details : String)
  | generic (msg : String)
deriving DecidableEq, Repr

/-- Result of one distribution-API call as supplied by the
environment. -/
inductive ASCResult (α : Type) where
  | ok (a : α)
  | err (e : ASCError)
deriving DecidableEq, Repr

/-- A distribution-API tester record, as returned by
`find_beta_tester`: the beta-group ids the matching testers belong
to. -/
structure ASCTester where
  betaGroupIds : List String
deriving DecidableEq, Repr

/-- Report text of the missing-credentials case
(reaction_roles.py:797). -/
def apiKeyNotSetMsg : String :=
  "No Api Key is set, unable to add tester automatically"

/-- Report text of the missing-beta-group case
(reaction_roles.py:807). -/
def betaGroupNotSetMsg : String :=
  "No Beta Group is set, unable to add tester automatically"

/-- Report text of the invalid-attribute case
(reaction_roles.py:818). -/
def invalidAttributeMsg : String :=
  "Tester has an attribute considered invalid by App Store Connect"

/-- Environment of `add_tester_to_group`: the results the distribution
API returns for the find and create calls. -/
structure GroupEnv where
  findBetaTester : ASCResult (List ASCTester)
  createBetaTester : ASCResult Unit
deriving Repr

/-- Embeds `add_tester_to_group` (reaction_roles.py:769-824).  Returns
the effects performed and the error re-raised out of the handler, if
any.  The `except AppStoreConnectError` block reports the
missing-credentials and missing-beta-group cases and falls through
(returning normally); the invalid-attribute case is reported and then
re-raised; a generic `AppStoreConnectError` matches no case of the
`match` statement and is swallowed silently. -/
def add_tester_to_group (env : GroupEnv) (app : App) :
    List Effect × Option ASCError :=
  let handleASC : ASCError → List Effect × Option ASCError := fun e =>
    match e with
    | ASCError.apiKeyNotSet => ([Effect.channelSend apiKeyNotSetMsg], none)
    | ASCError.betaGroupNotSet => ([Effect.channelSend betaGroupNotSetMsg], none)
    | ASCError.invalidAttribute d =>
      ([Effect.channelSend invalidAttributeMsg],
        some (ASCError.invalidAttribute d))
    | ASCError.generic _ => ([], none)
  match env.findBetaTester with
  | ASCResult.err e => handleASC e
  | ASCResult.ok testersWithEmail =>
    let groupsForTesters :=
      (testersWithEmail.map ASCTester.betaGroupIds).flatten
    if app.betaGroupId ∈ groupsForTesters then ([], none)
    else
      match env.createBetaTester with
      | ASCResult.ok _ => ([], none)
      | ASCResult.err e => handleASC e

/-! ## Approval handler (reaction_roles.py:459-598) -/

/-- Reply text when no testing request matches the reacted message
(reaction_roles.py:478). -/
def noRequestFoundApprovalMsg : String :=
  "Received approval reaction but no testing requests found for this message"

/-- Reply text of the rejected-to-approved refusal
(reaction_roles.py:487). -/
def previouslyRejectedMsg : String :=
  "Request was previously rejected. Cannot now approve."

/-- Structured-error text when the tester record cannot be fetched
(reaction_roles.py:505). -/
def couldNotFindTesterMsg : String :=
  "Received approval reaction but could not find tester"

/-- Structured-error text when the app record cannot be fetched
(reaction_roles.py:512). -/
def failedFetchAppMsg : String := "Failed to fetch app"

/-- Structured-error text of a failed role grant
(reaction_roles.py:538). -/
def failedAddRolesMsg : String :=
  "Received approval reaction but failed to add roles to member"

/-- Structured-error text of a failed approval notification
(reaction_roles.py:549). -/
def failedSendNotificationMsg : String :=
  "Added roles to member but failed to send notification"

/-- Structured-error text of a failed status persistence on approval
(reaction_roles.py:559). -/
def failedUpdateApprovedMsg : String :=
  "Failed to mark request as approved in airtable"

/-- Structured-error text of a failed success-marker addition
(reaction_roles.py:568). -/
def failedMarkPrimaryApprovedMsg : String :=
  "Added roles to member but failed to mark message"

/-- Structured-error text of a failed fan-out marking on approval
(reaction_roles.py:594). -/
def failedMarkOthersApprovedMsg : String :=
  "Added roles to member but failed to mark other message"

/-- Private approval notice sent to the tester
(reaction_roles.py:419). -/
def approvalDmMsg : String :=
  "Your request to test has been approved."

/-- Environment of `handle_role_approval`: the results of every awaited
collaborator call the handler makes. -/
structure ApprovalEnv where
  /-- `check_valid_role_reaction_channel` found an approval-channel,
  own-authored message (reaction_roles.py:460). -/
  validChannel : Bool
  /-- The reaction emoji is in the guild's approval-emoji set
  (reaction_roles.py:470). -/
  emojiIsApproval : Bool
  /-- `fetch_request(payload.message_id)` (reaction_roles.py:473). -/
  fetchRequest : Option TestingRequest
  /-- `fetch_tester(testing_request.tester)` (reaction_roles.py:496). -/
  fetchTester : Option Tester
  /-- `fetch_app(testing_request.app)` (reaction_roles.py:500). -/
  fetchApp : Option App
  /-- Distribution-API results for `add_tester_to_group`. -/
  group : GroupEnv
  /-- `guild.get_member(tester.discord_id)` found the member
  (reaction_roles.py:529); when not, `tester_user.roles` raises. -/
  memberExists : Bool
  /-- Value of `not all(r in tester_user.roles for r in roles)`
  (reaction_roles.py:530). -/
  rolesMissing : Bool
  /-- `tester_user.add_roles` succeeded (reaction_roles.py:533). -/
  addRolesOk : Bool
  /-- `send_approval_notification` succeeded (reaction_roles.py:545). -/
  notifyOk : Bool
  /-- `update_request` succeeded (reaction_roles.py:556). -/
  updateRequestOk : Bool
  /-- `message.add_reaction` of the success marker succeeded
  (reaction_roles.py:565). -/
  markPrimaryOk : Bool
  /-- Id of the reacted message. -/
  triggerMessageId : Nat
  /-- The chat platform's local message cache. -/
  cache : Nat → Option Msg
  /-- Network fetch of a message by id. -/
  fetchMsg : Nat → Msg
  /-- The fan-out fetch/mark block raised no platform exception
  (reaction_roles.py:574-591). -/
  fanoutOk : Bool

/-- Fan-out step shared by the approval and rejection handlers
(reaction_roles.py:574-591 and 656-673): select the other notification
messages, split them into cached and fetched, and mark both groups,
returning early when there are none. -/
def fanout_step (triggerMessageId : Nat) (cache : Nat → Option Msg)
    (fetchMsg : Nat → Msg) (fanoutOk : Bool) (req : TestingRequest)
    (mark : List Msg → List Effect) (failMsg : String)
    (acc : List Effect) (okResult : α) : List Effect × HRes α :=
  let otherIds := get_other_request_messages_ids triggerMessageId req
  let cached := otherIds.filterMap cache
  let nonCached := (otherIds.filter (fun i => (cache i).isNone)).map fetchMsg
  if cached = [] ∧ nonCached = [] then (acc, HRes.ok okResult)
  else if fanoutOk then
    (acc ++ mark cached ++ mark nonCached, HRes.ok okResult)
  else (acc, HRes.rrErr failMsg)

/-- Embeds `handle_role_approval` (reaction_roles.py:459-598), given
the collaborator results in `env`.  Returns the effects performed, in
order, and the outcome: `ok` for a normal return, `rrErr` for a raised
`ReactionRoleError`, `defect` for any other exception. -/
def handle_role_approval (env : ApprovalEnv) : List Effect × HRes Unit :=
  if ¬ env.validChannel then ([], HRes.ok ())
  else if ¬ env.emojiIsApproval then ([], HRes.ok ())
  else
    match env.fetchRequest with
    | none => ([Effect.channelSend noRequestFoundApprovalMsg], HRes.ok ())
    | some req =>
      if req.status = RequestStatus.REJECTED then
        ([Effect.channelSend previouslyRejectedMsg], HRes.ok ())
      else
        match env.fetchTester, env.fetchApp with
        | none, _ => ([], HRes.rrErr couldNotFindTesterMsg)
        | some _, none => ([], HRes.rrErr failedFetchAppMsg)
        | some _, some app =>
          let isPrev := req.approved
          let req2 := { req with status := RequestStatus.APPROVED }
          let stepFanout : List Effect → List Effect × HRes Unit := fun acc =>
            fanout_step env.triggerMessageId env.cache env.fetchMsg
              env.fanoutOk req2 mark_request_message_approved
              failedMarkOthersApprovedMsg acc ()
          let stepMark : List Effect → List Effect × HRes Unit := fun acc =>
            if env.markPrimaryOk then
              stepFanout (acc ++ [Effect.addReaction env.triggerMessageId "✅"])
            else (acc, HRes.rrErr failedMarkPrimaryApprovedMsg)
          let stepUpdate : List Effect → List Effect × HRes Unit := fun acc =>
            if env.updateRequestOk then
              stepMark
                (acc ++ [Effect.updateRequest req2.reqId RequestStatus.APPROVED])
            else (acc, HRes.rrErr failedUpdateApprovedMsg)
          let stepNotify : List Effect → List Effect × HRes Unit := fun acc =>
            if isPrev then stepUpdate acc
            else if env.notifyOk then
              stepUpdate (acc ++ [Effect.dmSend approvalDmMsg])
            else (acc, HRes.rrErr failedSendNotificationMsg)
          let stepRoles : List Effect → List Effect × HRes Unit := fun acc =>
            if env.rolesMissing then
              if env.addRolesOk then stepNotify (acc ++ [Effect.addRoles])
              else (acc, HRes.rrErr failedAddRolesMsg)
            else stepNotify acc
          let groupStep := add_tester_to_group env.group app
          match groupStep.2 with
          | some (ASCError.invalidAttribute _) => (groupStep.1, HRes.ok ())
          | some _ => (groupStep.1, HRes.defect)
          | none =>
            if ¬ env.memberExists then (groupStep.1, HRes.defect)
            else stepRoles groupStep.1

/-! ## Rejection handler (reaction_roles.py:600-679) -/

/-- Reply text when no testing request matches the reacted message
(reaction_roles.py:623). -/
def noRequestFoundRejectionMsg : String :=
  "Received rejection reaction but no testing requests found for this message"

/-- Reply text of the approved-to-rejected refusal
(reaction_roles.py:631). -/
def previouslyApprovedMsg : String :=
  "Request was previously approved. Cannot now reject."

/-- Structured-error text of a failed status persistence on rejection
(reaction_roles.py:642). -/
def failedUpdateRejectedMsg : String :=
  "Failed to mark request as rejected in airtable"

/-- Structured-error text of a failed rejection-marker addition
(reaction_roles.py:651). -/
def failedMarkPrimaryRejectedMsg : String :=
  "Received rejection reaction but failed to mark message"

/-- Structured-error text of a failed fan-out marking on rejection
(reaction_roles.py:676). -/
def failedMarkOthersRejectedMsg : String :=
  "Received rejection reaction but failed to mark other message"

/-- Environment of `handle_role_rejection`. -/
structure RejectionEnv where
  /-- `check_valid_role_reaction_channel` succeeded
  (reaction_roles.py:604). -/
  validChannel : Bool
  /-- The reaction emoji is in the guild's rejection-emoji set
  (reaction_roles.py:612). -/
  emojiIsRejection : Bool
  /-- `fetch_request(payload.message_id)` (reaction_roles.py:617). -/
  fetchRequest : Option TestingRequest
  /-- `update_request` succeeded (reaction_roles.py:639). -/
  updateRequestOk : Bool
  /-- `message.add_reaction` of the rejection marker succeeded
  (reaction_roles.py:648). -/
  markPrimaryOk : Bool
  /-- Id of the reacted message. -/
  triggerMessageId : Nat
  /-- The chat platform's local message cache. -/
  cache : Nat → Option Msg
  /-- Network fetch of a message by id. -/
  fetchMsg : Nat → Msg
  /-- The fan-out fetch/mark block raised no platform exception
  (reaction_roles.py:656-673). -/
  fanoutOk : Bool

/-- Embeds `handle_role_rejection` (reaction_roles.py:600-679).
Returns the effects performed and the outcome carrying the handler's
boolean return value. -/
def handle_role_rejection (env : RejectionEnv) : List Effect × HRes Bool :=
  if ¬ env.validChannel then ([], HRes.ok false)
  else if ¬ env.emojiIsRejection then ([], HRes.ok false)
  else
    match env.fetchRequest with
    | none => ([Effect.channelSend noRequestFoundRejectionMsg], HRes.ok false)
    | some req =>
      if req.status = RequestStatus.APPROVED then
        ([Effect.channelSend previouslyApprovedMsg], HRes.ok true)
      else
        let req2 := { req with status := RequestStatus.REJECTED }
        let stepFanout : List Effect → List Effect × HRes Bool := fun acc =>
          fanout_step env.triggerMessageId env.cache env.fetchMsg
            env.fanoutOk req2 mark_request_message_rejected
            failedMarkOthersRejectedMsg acc true
        let stepMark : List Effect → List Effect × HRes Bool := fun acc =>
          if env.markPrimaryOk then
            stepFanout (acc ++ [Effect.addReaction env.triggerMessageId "⛔"])
          else (acc, HRes.rrErr failedMarkPrimaryRejectedMsg)
        if env.updateRequestOk then
          stepMark [Effect.updateRequest req2.reqId RequestStatus.REJECTED]
        else ([], HRes.rrErr failedUpdateRejectedMsg)

/-! ## Removal handler (reaction_roles.py:681-723) -/

/-- The transient processing marker (reaction_roles.py:80). -/
def processing_emoji : String := "⏳"

/-- Report text when no tester record matches the leave message
(reaction_roles.py:717). -/
def failedFindTesterForLeaveMsg : String :=
  "Failed to find tester for leave message"

/-- Environment of `handle_removal_reaction`. -/
structure RemovalEnv where
  /-- `check_valid_role_reaction_channel` succeeded
  (reaction_roles.py:698). -/
  validChannel : Bool
  /-- The reaction emoji is in the guild's removal-emoji set
  (reaction_roles.py:706). -/
  emojiIsRemoval : Bool
  /-- `find_tester_by_leave_message(payload.message_id)`
  (reaction_roles.py:711). -/
  findTesterByLeave : Option Tester
  /-- Id of the reacted message. -/
  messageId : Nat
  /-- Effects of `remove_tester_from_app_store`
  (reaction_roles.py:721), supplied abstractly. -/
  removalStepEffects : List Effect

/-- Embeds `handle_removal_reaction` (reaction_roles.py:681-723).
Returns the effects performed and the handler's boolean return value.
The processing marker is added after the channel check and before the
emoji check (reaction_roles.py:703); the tester-not-found branch
reports to the channel and returns `false` (reaction_roles.py:714-719). -/
def handle_removal_reaction (env : RemovalEnv) : List Effect × Bool :=
  if ¬ env.validChannel then ([], false)
  else
    let acc := [Effect.addReaction env.messageId processing_emoji]
    if ¬ env.emojiIsRemoval then (acc, false)
    else
      match env.findTesterByLeave with
      | none => (acc ++ [Effect.channelSend failedFindTesterForLeaveMsg], false)
      | some _ =>
        (acc ++ env.removalStepEffects ++ [Effect.addReaction env.messageId "🚪"],
          true)

/-! ## Top-level reaction dispatch (reaction_roles.py:725-767) -/

/-- The four sub-handlers `handle_reaction` tries, in source order. -/
inductive SubHandler where
  | roleReaction
  | approval
  | rejection
  | removal
deriving DecidableEq, Repr

/-- Result of one sub-handler call, as supplied by the environment: a
normal return carrying the handled flag (the flag is meaningful only
for the rejection and removal handlers, whose return value the
dispatcher consults), or one of the exception shapes the dispatcher
distinguishes. -/
inductive StepRes where
  | ok (handled : Bool)
  | raiseAirtable
  | raiseRR (msg : String)
  | raiseOther
deriving DecidableEq, Repr

/-- Report text of the store-layer failure branch
(reaction_roles.py:747). -/
def airtableReportMsg : String := "Failed to handle reaction"

/-- Environment of `handle_reaction`: the event type, what each
sub-handler call does, and, for the claim-side dispatcher, which
disposition the event actually matches. -/
structure DispatchEnv where
  /-- The event is a reaction-add event (reaction_roles.py:728). -/
  isReactionAdd : Bool
  /-- Result of `handle_role_reaction` (its return value is discarded,
  reaction_roles.py:729). -/
  roleReactionRes : StepRes
  /-- Result of `handle_role_approval` (its return value is discarded,
  reaction_roles.py:730). -/
  approvalRes : StepRes
  /-- Result of `handle_role_rejection` (reaction_roles.py:731). -/
  rejectionRes : StepRes
  /-- Result of `handle_removal_reaction` (reaction_roles.py:732). -/
  removalRes : StepRes
  /-- The event matches the role-reaction disposition (used only by the
  claim-side dispatcher; the source discards this handler's outcome). -/
  rrMatches : Bool
  /-- The event matches the approval disposition (used only by the
  claim-side dispatcher; the source discards this handler's outcome). -/
  approvalMatches : Bool
  /-- Id of the reacted message (for the cleanup step). -/
  messageId : Nat

/-- Dispatch body of `handle_reaction` (reaction_roles.py:726-732):
runs the sub-handlers in source order, stopping at the first raised
exception; `handled` is taken from the rejection handler and, when that
is false, from the removal handler, whose call is short-circuited by
Python `or` when rejection already returned true.  Returns the
invocation trace and the body's result. -/
def dispatch_body (env : DispatchEnv) : List SubHandler × StepRes :=
  if ¬ env.isReactionAdd then ([], StepRes.ok false)
  else
    match env.roleReactionRes with
    | StepRes.ok _ =>
      match env.approvalRes with
      | StepRes.ok _ =>
        match env.rejectionRes with
        | StepRes.ok rejHandled =>
          if rejHandled then
            ([SubHandler.roleReaction, SubHandler.approval,
              SubHandler.rejection], StepRes.ok true)
          else
            match env.removalRes with
            | StepRes.ok remHandled =>
              ([SubHandler.roleReaction, SubHandler.approval,
                SubHandler.rejection, SubHandler.removal],
                StepRes.ok remHandled)
            | e =>
              ([SubHandler.roleReaction, SubHandler.approval,
                SubHandler.rejection, SubHandler.removal], e)
        | e =>
          ([SubHandler.roleReaction, SubHandler.approval,
            SubHandler.rejection], e)
      | e => ([SubHandler.roleReaction, SubHandler.approval], e)
    | e => ([SubHandler.roleReaction], e)

/-- Embeds `handle_reaction` (reaction_roles.py:725-767): the dispatch
body wrapped in the catch boundary and the `finally` cleanup.  Returns
the invocation trace, the effects of the except and finally blocks, and
the overall outcome: `Except.ok handled` for a normal or handled exit,
`Except.error ()` for a propagating defect.  The `finally` block
removes the processing marker on every exit path
(reaction_roles.py:762-766). -/
def handle_reaction (env : DispatchEnv) :
    List SubHandler × List Effect × Except Unit Bool :=
  let body := dispatch_body env
  let cleanup := Effect.removeReaction env.messageId processing_emoji
  match body.2 with
  | StepRes.ok b => (body.1, [cleanup], Except.ok b)
  | StepRes.raiseAirtable =>
    (body.1, [Effect.channelSend airtableReportMsg, cleanup], Except.ok false)
  | StepRes.raiseRR m =>
    (body.1, [Effect.channelSend m, cleanup], Except.ok true)
  | StepRes.raiseOther => (body.1, [cleanup], Except.error ())

/-- Modelled from the spec: the dispatcher the claim describes — try
the dispositions in the fixed precedence order role-reaction, approval,
rejection, removal, short-circuiting as soon as one disposition is
returned; an event matching no disposition is not handled.  Stated only
to be compared with `dispatch_body`. -/
def spec_dispatch (env : DispatchEnv) : List SubHandler × Bool :=
  if ¬ env.isReactionAdd then ([], false)
  else if env.rrMatches then ([SubHandler.roleReaction], true)
  else if env.approvalMatches then
    ([SubHandler.roleReaction, SubHandler.approval], true)
  else if (env.rejectionRes = StepRes.ok true) then
    ([SubHandler.roleReaction, SubHandler.approval, SubHandler.rejection],
      true)
  else if (env.removalRes = StepRes.ok true) then
    ([SubHandler.roleReaction, SubHandler.approval, SubHandler.rejection,
      SubHandler.removal], true)
  else
    ([SubHandler.roleReaction, SubHandler.approval, SubHandler.rejection,
      SubHandler.removal], false)

/-! ## Creation path (reaction_roles.py:276-414)

The embedding starts at the per-actor lock (reaction_roles.py:277): the
earlier guards of `handle_role_reaction` (watched-message membership,
member and guild resolution, rules gating, closed betas, app-less
direct grant) all return before the request flow and are not touched by
the claims over this path. -/

/-- Environment of the creation path. -/
structure CreationEnv where
  /-- `payload.user_id` / `payload.member.id` as a store key. -/
  userId : String
  /-- `payload.member.name`. -/
  username : String
  /-- `reaction_role.app_ids`. -/
  appIds : List String
  /-- `payload.guild_id` as stored on the request. -/
  serverId : String
  /-- Current wall-clock time, in minutes (`discord.utils.utcnow`). -/
  now : Nat
  /-- Creation time, in minutes, of the direct message with the given
  id (`payload.member.fetch_message(...).created_at`). -/
  fetchUserMessage : String → Nat
  /-- Id of the registration prompt sent by `send_registration_message`
  (reaction_roles.py:337). -/
  newRegMsgId : String
  /-- Id of the notification message sent into the approval channel
  (reaction_roles.py:405). -/
  newNotifMsgId : String
  /-- `get_default_approvals_channel_id(server_id)`
  (reaction_roles.py:377). -/
  defaultApprovalsChannel : Option String
  /-- `self.get_channel(id)` finds the channel
  (reaction_roles.py:375 and 381). -/
  channelResolvable : String → Bool

/-- Outcome of the approval-channel resolution of
`send_request_notification_message` (reaction_roles.py:374-386). -/
inductive ChannelRes where
  | found (cid : String)
  | noneFound
  | defect
deriving DecidableEq, Repr

/-- Embeds the channel resolution of `send_request_notification_message`
(reaction_roles.py:374-386): a request-level channel id is used
directly (an unresolvable one leaves `approval_channel = None` and the
later send raises, a defect); otherwise the guild default is used when
both configured and resolvable; otherwise the handler logs and
returns. -/
def resolve_notification_channel (env : CreationEnv) (req : TestingRequest) :
    ChannelRes :=
  match req.approvalChannelId with
  | some cid =>
    if env.channelResolvable cid then ChannelRes.found cid
    else ChannelRes.defect
  | none =>
    match env.defaultApprovalsChannel with
    | some dc =>
      if env.channelResolvable dc then ChannelRes.found dc
      else ChannelRes.noneFound
    | none => ChannelRes.noneFound

/-- Embeds `send_request_notification_message`
(reaction_roles.py:367-414): resolve the approval channel, send the
notification, then record the sent message id as the primary
notification id on a first send or append it to the
further-notification ids on a repeat, and persist the request. -/
def send_request_notification_message (env : CreationEnv) (store : Store)
    (req : TestingRequest) : Store × List Effect × HRes Unit :=
  let isRepeat := req.notificationMessageId.isSome
  match resolve_notification_channel env req with
  | ChannelRes.defect => (store, [], HRes.defect)
  | ChannelRes.noneFound => (store, [], HRes.ok ())
  | ChannelRes.found _ =>
    let req2 :=
      if ¬ isRepeat then { req with notificationMessageId := some env.newNotifMsgId }
      else
        { req with furtherNotificationMessageIds :=
            req.furtherNotificationMessageIds ++ [env.newNotifMsgId] }
    (update_request store req2, [Effect.notifSend req.reqId isRepeat], HRes.ok ())

/-- Embeds the registration gate (reaction_roles.py:322-342): a tester
with no email on file either aborts silently when the previous
registration prompt is younger than 30 minutes, or is sent a fresh
prompt whose message id is persisted before aborting; a tester with an
email continues with `k`. -/
def email_gate (env : CreationEnv) (store : Store) (tester : Tester)
    (k : Store → Store × List Effect × HRes Unit) :
    Store × List Effect × HRes Unit :=
  if tester.email = none then
    let recent : Bool :=
      match tester.registrationMessageId with
      | some rmid => decide (env.now < env.fetchUserMessage rmid + 30)
      | none => false
    if recent then (store, [], HRes.ok ())
    else
      let tester2 := { tester with registrationMessageId := some env.newRegMsgId }
      ((upsert_tester store tester2).1,
        [Effect.sendRegistration tester.discordId], HRes.ok ())
  else k store

/-- Placeholder request used only as the default of a `headD` taken on
a list known to be non-empty. -/
def dummyRequest : TestingRequest :=
  { tester := "", testerDiscordId := "", app := "", serverId := "" }

/-- Embeds the request flow of `handle_role_reaction`
(reaction_roles.py:276-356), from the per-actor lock on: tester
upsert, listing of the tester's non-removed requests for the reacted
role's app set, creation of a new PENDING request when none exist,
silent abort when any listed request is REJECTED, the registration
gate, and the notification send for the new request or the oldest
existing one. -/
def handle_role_reaction_creation (env : CreationEnv) (store : Store) :
    Store × List Effect × HRes Unit :=
  let tester0 :=
    match find_tester store env.userId with
    | none => { username := env.username, discordId := env.userId : Tester }
    | some t => { t with username := env.username, discordId := env.userId }
  let up := upsert_tester store tester0
  let store1 := up.1
  let tester := up.2
  let existing := list_requests store1 tester.discordId env.appIds
  if existing.length = 0 then
    let ar := add_request store1
      { tester := tester.id.getD "", testerDiscordId := tester.discordId,
        app := env.appIds.headD "", serverId := env.serverId }
    email_gate env ar.1 tester
      (fun s => send_request_notification_message env s ar.2)
  else if existing.any (fun r => r.status = RequestStatus.REJECTED) then
    (store1, [], HRes.ok ())
  else
    email_gate env store1 tester
      (fun s =>
        send_request_notification_message env s (existing.headD dummyRequest))

/-! ## Member-leave handler (reaction_roles.py:956-1002) -/

/-- Report text of the missing-tester-record branch
(reaction_roles.py:990). -/
def failedFindTesterRecordMsg : String :=
  "Failed to find Tester record. This should never happen!"

/-- Report text of the failed leave-message persistence
(reaction_roles.py:1001). -/
def failedUpdateLeaveMsg : String :=
  "Failed to update tester with leave message ID"

/-- Environment of `on_raw_member_remove`. -/
structure MemberRemoveEnv where
  /-- `payload.user.id` as a store key. -/
  userId : String
  /-- `get_tester_exit_notification_channel(guild_id)`
  (reaction_roles.py:958). -/
  exitChannelId : Option String
  /-- `self.get_channel(id)` finds the channel
  (reaction_roles.py:973). -/
  channelResolvable : String → Bool
  /-- `fetch_app(app_id).name` (reaction_roles.py:1010). -/
  appName : String → String
  /-- Id of the sent exit notification message. -/
  newExitMsgId : String
  /-- `upsert_tester` raised no store error (reaction_roles.py:995). -/
  upsertOk : Bool

/-- Embeds `on_raw_member_remove` (reaction_roles.py:956-1002): post an
exit notification only when the guild has a configured exit channel,
the leaving user has at least one approved non-removed request, and the
channel resolves; then append the notification's id to the tester's
leave-message ids and persist, reporting a persistence failure to the
same channel instead of raising. -/
def on_raw_member_remove (env : MemberRemoveEnv) (store : Store) :
    Store × List Effect × HRes Unit :=
  match env.exitChannelId with
  | none => (store, [], HRes.ok ())
  | some cid =>
    let userTestingApps :=
      (list_approved_requests store env.userId).map (fun r => env.appName r.app)
    if userTestingApps.length = 0 then (store, [], HRes.ok ())
    else if ¬ env.channelResolvable cid then (store, [], HRes.ok ())
    else
      let acc := [Effect.exitNotifSend cid]
      match find_tester store env.userId with
      | none =>
        (store, acc ++ [Effect.channelSend failedFindTesterRecordMsg],
          HRes.ok ())
      | some tester =>
        let tester2 :=
          { tester with
              leaveMessageIds := tester.leaveMessageIds ++ [env.newExitMsgId] }
        if env.upsertOk then ((upsert_tester store tester2).1, acc, HRes.ok ())
        else (store, acc ++ [Effect.channelSend failedUpdateLeaveMsg],
          HRes.ok ())

/-! ## Store lemmas -/

/-- Upserting a tester does not touch the request records. -/
theorem upsert_tester_requests (s : Store) (t : Tester) :
    (upsert_tester s t).1.requests = s.requests := by
  unfold upsert_tester
  cases s.testers.find? (fun u => u.discordId = t.discordId) <;> rfl

/-- Replacing the matching testers in a list in which some tester
matches yields a list in which the replacement is found. -/
theorem find_map_replace (l : List Tester) (uid : String) (stored : Tester)
    (hs : stored.discordId = uid) (t : Tester)
    (hf : l.find? (fun v => v.discordId = uid) = some t) :
    (l.map (fun v => if v.discordId = uid then stored else v)).find?
      (fun v => v.discordId = uid) = some stored := by
  induction l with
  | nil => simp at hf
  | cons u rest ih =>
    by_cases hu : u.discordId = uid
    · simp [hu, hs]
    · have h1 : (if u.discordId = uid then stored else u) = u := if_neg hu
      have hf2 : rest.find? (fun v => v.discordId = uid) = some t := by
        rwa [List.find?_cons_of_neg _ (by simp [hu])] at hf
      simp only [List.map_cons, h1]
      rw [List.find?_cons_of_neg _ (by simp [hu])]
      exact ih hf2

/-- After upserting over an existing record with the same id, the
stored tester is the upserted one carrying the old record id. -/
theorem find_tester_after_upsert (s : Store) (uid : String) (t t2 : Tester)
    (ht : find_tester s uid = some t) (h2 : t2.discordId = uid) :
    find_tester (upsert_tester s t2).1 uid = some { t2 with id := t.id } := by
  subst h2
  unfold find_tester at ht ⊢
  unfold upsert_tester
  rw [ht]
  exact find_map_replace s.testers t2.discordId { t2 with id := t.id } rfl t ht

/-- After upserting a record with an unseen id, the stored tester is
the upserted one carrying a fresh record id. -/
theorem find_tester_after_upsert_new (s : Store) (uid : String) (t2 : Tester)
    (ht : find_tester s uid = none) (h2 : t2.discordId = uid) :
    find_tester (upsert_tester s t2).1 uid =
      some { t2 with id := some t2.discordId } := by
  subst h2
  unfold find_tester at ht ⊢
  unfold upsert_tester
  rw [ht]
  simp [List.find?_append, ht]

/-- Updating a request does not touch the tester records. -/
theorem update_request_testers (s : Store) (r : TestingRequest) :
    (update_request s r).testers = s.testers := rfl

/-- Updating a request preserves the number of request records. -/
theorem update_request_length (s : Store) (r : TestingRequest) :
    (update_request s r).requests.length = s.requests.length := by
  unfold update_request
  simp

/-- Replacing by an id that no element of the list carries is the
identity. -/
theorem map_no_collision (l : List TestingRequest) (r2 : TestingRequest)
    (n : Nat) (h : ∀ q ∈ l, q.reqId ≠ n) :
    l.map (fun q => if q.reqId = n then r2 else q) = l := by
  induction l with
  | nil => rfl
  | cons q rest ih =>
    simp only [List.map_cons, List.cons.injEq]
    constructor
    · exact if_neg (h q (List.mem_cons_self q rest))
    · exact ih (fun q hq => h q (List.mem_cons_of_mem _ hq))

/-- The request listing reads only the request records. -/
theorem list_requests_set_testers (X : List Tester) (s : Store)
    (uid : String) (as : List String) :
    list_requests { s with testers := X } uid as = list_requests s uid as :=
  rfl

/-- Upserting over an existing record keyed by the same id replaces the
matching testers and returns the upserted record carrying the old
record id. -/
theorem upsert_tester_found (s : Store) (t2 u : Tester)
    (hf : find_tester s t2.discordId = some u) :
    upsert_tester s t2 =
      ({ s with testers := s.testers.map (fun v =>
          if v.discordId = t2.discordId then { t2 with id := u.id } else v) },
        { t2 with id := u.id }) := by
  unfold find_tester at hf
  unfold upsert_tester
  rw [hf]

/-- Replacing the matching testers by a record with the same id keeps
the number of records with that id. -/
theorem filter_discordId_map_replace (l : List Tester) (uid : String)
    (stored : Tester) (hs : stored.discordId = uid) :
    ((l.map (fun v => if v.discordId = uid then stored else v)).filter
      (fun u => u.discordId = uid)).length =
    (l.filter (fun u => u.discordId = uid)).length := by
  induction l with
  | nil => rfl
  | cons a rest ih =>
    by_cases had : a.discordId = uid
    · simp [had, hs, ih]
    · simp [had, ih]

/-- The registration gate on a tester with no email and no recent
prompt: one prompt is sent and the prompt id is persisted on the
tester. -/
theorem email_gate_sends (env : CreationEnv) (X : List Tester)
    (R : List TestingRequest)
    (tester : Tester) (k : Store → Store × List Effect × HRes Unit)
    (he2 : tester.email = none)
    (hnr : (match tester.registrationMessageId with
      | some rmid => decide (env.now < env.fetchUserMessage rmid + 30)
      | none => false) = false)
    (u : Tester)
    (hf : X.find? (fun v => v.discordId = tester.discordId) = some u) :
    email_gate env { testers := X, requests := R } tester k =
      ({ testers := X.map (fun v =>
          if v.discordId = tester.discordId then
            { tester with
                id := u.id,
                registrationMessageId := some env.newRegMsgId } else v),
          requests := R },
        [Effect.sendRegistration tester.discordId], HRes.ok ()) := by
  unfold email_gate
  rw [if_pos he2, hnr]
  dsimp only
  rw [upsert_tester_found { testers := X, requests := R }
    { tester with registrationMessageId := some env.newRegMsgId } u hf]
  simp

/-- The registration gate on a tester with no email and a prompt sent
within the last 30 minutes: a silent no-op. -/
theorem email_gate_recent (env : CreationEnv) (s : Store) (tester : Tester)
    (k : Store → Store × List Effect × HRes Unit) (rmid : String)
    (he2 : tester.email = none)
    (hr : tester.registrationMessageId = some rmid)
    (hrec : env.now < env.fetchUserMessage rmid + 30) :
    email_gate env s tester k = (s, [], HRes.ok ()) := by
  unfold email_gate
  rw [if_pos he2, hr]
  simp [hrec]

/-- The head of a non-empty list with a default is a member. -/
theorem headD_mem {α : Type} (l : List α) (d : α) (h : l ≠ []) :
    l.headD d ∈ l := by
  cases l with
  | nil => exact absurd rfl h
  | cons a rest => simp [List.headD]

/-- The upsert performed on entry of the creation flow, when the tester
already exists: the stored record is the refreshed tester and the store
keeps its requests. -/
theorem creation_upsert_step (env : CreationEnv) (store : Store) (t : Tester)
    (ht : find_tester store env.userId = some t) :
    upsert_tester store
        { t with username := env.username, discordId := env.userId } =
      ({ store with
          testers := store.testers.map (fun v =>
            if v.discordId = env.userId then
              { t with username := env.username, discordId := env.userId }
            else v) },
        { t with username := env.username, discordId := env.userId }) := by
  unfold find_tester at ht
  unfold upsert_tester
  dsimp only
  rw [ht]

/-- The upsert performed on entry of the creation flow, when the tester
is new: the fresh record is appended and assigned a record id. -/
theorem creation_upsert_step_new (env : CreationEnv) (store : Store)
    (ht : find_tester store env.userId = none) :
    upsert_tester store
        { username := env.username, discordId := env.userId : Tester } =
      ({ store with
          testers := store.testers ++
            [{ id := some env.userId, username := env.username,
               discordId := env.userId : Tester }] },
        { id := some env.userId, username := env.username,
          discordId := env.userId : Tester }) := by
  unfold find_tester at ht
  unfold upsert_tester
  dsimp only
  rw [ht]

/-! ## Claims -/

/-! ## Claims -/

/-- Request used by the C4 evaluation: primary notification id 100, one
further notification copy 200, and the transition is triggered from
message 200 itself. -/
def c4Request : TestingRequest :=
  { tester := "t1", testerDiscordId := "t1", app := "a1", serverId := "s1",
    notificationMessageId := some "100",
    furtherNotificationMessageIds := ["200"] }

/-- C4: the cross-message synchronizer is claimed to mark every
notification copy except the message that triggered the current
transition.  Evaluating the source's selection logic at a request whose
further-notification ids contain the triggering message id 200 shows
the triggering message is selected anyway: the comprehension condition
`int(message_id) != message_id` (reaction_roles.py:92) compares the
comprehension variable — a stored string id — with itself after `int()`
conversion, the function parameter of the same name being shadowed, so
it is true for every stored string id. -/
theorem C4_trigger_not_excluded :
    get_other_request_messages_ids 200 c4Request = [200, 100] ∧
    200 ∈ get_other_request_messages_ids 200 c4Request := by
  constructor
  · rfl
  · decide

/-- Environment of the C6 evaluation: a removal-emoji reaction on an
own-authored message in an approval channel whose message id matches no
tester's leave message. -/
def c6Env : RemovalEnv :=
  { validChannel := true, emojiIsRemoval := true, findTesterByLeave := none,
    messageId := 5, removalStepEffects := [] }

/-- C6: the claim (and the handler's own docstring, which promises
`True` whenever the reaction is recognised as a removal reaction) says
a tester-not-found removal is reported but still returned as handled.
Evaluating the handler shows it reports the failure and returns
`false` (reaction_roles.py:714-719). -/
theorem C6_tester_not_found_returns_false :
    handle_removal_reaction c6Env =
      ([Effect.addReaction 5 processing_emoji,
        Effect.channelSend failedFindTesterForLeaveMsg], false) := by
  rfl

/-- C8: the transient processing marker is removed as the last effect
of `handle_reaction` on every exit path — normal return, handled
store-layer failure, handled workflow-structured failure, and
propagating defect alike. -/
theorem C8_processing_marker_always_removed (env : DispatchEnv) :
    Effect.removeReaction env.messageId processing_emoji ∈
      (handle_reaction env).2.1 ∧
    (handle_reaction env).2.1.getLast? =
      some (Effect.removeReaction env.messageId processing_emoji) := by
  unfold handle_reaction
  cases h : (dispatch_body env).2 <;> simp [h]

/-- Environment of the C5 counterexample: a reaction-add event that
matches the approval disposition and nothing else, with every
sub-handler returning normally. -/
def c5Env : DispatchEnv :=
  { isReactionAdd := true, roleReactionRes := StepRes.ok false,
    approvalRes := StepRes.ok false, rejectionRes := StepRes.ok false,
    removalRes := StepRes.ok false, rrMatches := false,
    approvalMatches := true, messageId := 1 }

/-- C5 counterexample: on an event matching the approval disposition
the claimed dispatcher short-circuits after the approval handler and
reports the event handled, but the source's dispatch body always goes
on to invoke the rejection and removal handlers — the role-reaction and
approval return values are discarded (reaction_roles.py:729-732) — and
returns handled = false. -/
theorem C5_no_short_circuit_counterexample :
    (dispatch_body c5Env).1 =
      [SubHandler.roleReaction, SubHandler.approval, SubHandler.rejection,
        SubHandler.removal] ∧
    spec_dispatch c5Env = ([SubHandler.roleReaction, SubHandler.approval], true) ∧
    (dispatch_body c5Env).1 ≠ (spec_dispatch c5Env).1 ∧
    (handle_reaction c5Env).2.2 = Except.ok false := by
  refine ⟨by decide, by decide, by decide, by rfl⟩

/-- C5 (amended): for every reaction-add event whose sub-handlers all
return normally, `handle_reaction` invokes the role-reaction and
approval handlers unconditionally (their results are not consulted),
then the rejection handler, and invokes the removal handler only when
rejection did not report the event handled; the overall handled result
is the rejection handler's result or else the removal handler's, so an
event matching no disposition yields handled = false with no error. -/
theorem C5_dispatch_order (env : DispatchEnv) (b1 b2 br bm : Bool)
    (h0 : env.isReactionAdd = true)
    (h1 : env.roleReactionRes = StepRes.ok b1)
    (h2 : env.approvalRes = StepRes.ok b2)
    (h3 : env.rejectionRes = StepRes.ok br)
    (h4 : env.removalRes = StepRes.ok bm) :
    (dispatch_body env).1 =
      [SubHandler.roleReaction, SubHandler.approval, SubHandler.rejection] ++
        (if br then [] else [SubHandler.removal]) ∧
    (handle_reaction env).2.2 = Except.ok (br || bm) := by
  cases br <;> cases bm <;>
    simp [dispatch_body, handle_reaction, h0, h1, h2, h3, h4]

/-- Witness for C5_dispatch_order at a concrete event handled by the
rejection handler. -/
theorem C5_dispatch_order_witness :
    (dispatch_body
        { isReactionAdd := true, roleReactionRes := StepRes.ok false,
          approvalRes := StepRes.ok false, rejectionRes := StepRes.ok true,
          removalRes := StepRes.ok false, rrMatches := false,
          approvalMatches := false, messageId := 2 }).1 =
      [SubHandler.roleReaction, SubHandler.approval, SubHandler.rejection] ++
        (if true then [] else [SubHandler.removal]) ∧
    (handle_reaction
        { isReactionAdd := true, roleReactionRes := StepRes.ok false,
          approvalRes := StepRes.ok false, rejectionRes := StepRes.ok true,
          removalRes := StepRes.ok false, rrMatches := false,
          approvalMatches := false, messageId := 2 }).2.2 =
      Except.ok (true || false) :=
  C5_dispatch_order _ false false true false rfl rfl rfl rfl rfl

/-- C1: if the approval handler finds the resolved request REJECTED, or
the rejection handler finds it APPROVED, the handler's only effect is a
user-visible reply — no store mutation, no reaction, no further effect
— and it returns normally. -/
theorem C1_no_cross_transitions
    (envA : ApprovalEnv) (reqA : TestingRequest)
    (hA1 : envA.validChannel = true) (hA2 : envA.emojiIsApproval = true)
    (hA3 : envA.fetchRequest = some reqA)
    (hA4 : reqA.status = RequestStatus.REJECTED)
    (envR : RejectionEnv) (reqR : TestingRequest)
    (hR1 : envR.validChannel = true) (hR2 : envR.emojiIsRejection = true)
    (hR3 : envR.fetchRequest = some reqR)
    (hR4 : reqR.status = RequestStatus.APPROVED) :
    handle_role_approval envA =
      ([Effect.channelSend previouslyRejectedMsg], HRes.ok ()) ∧
    handle_role_rejection envR =
      ([Effect.channelSend previouslyApprovedMsg], HRes.ok true) := by
  constructor
  · simp [handle_role_approval, hA1, hA2, hA3, hA4]
  · simp [handle_role_rejection, hR1, hR2, hR3, hR4]

/-- Request fetched in the C1 witness's approval half. -/
def c1RejectedRequest : TestingRequest :=
  { tester := "t1", testerDiscordId := "t1", app := "a1", serverId := "s1",
    status := RequestStatus.REJECTED }

/-- Request fetched in the C1 witness's rejection half. -/
def c1ApprovedRequest : TestingRequest :=
  { tester := "t1", testerDiscordId := "t1", app := "a1", serverId := "s1",
    status := RequestStatus.APPROVED }

/-- Approval environment of the C1 witness. -/
def c1ApprovalEnv : ApprovalEnv :=
  { validChannel := true, emojiIsApproval := true,
    fetchRequest := some c1RejectedRequest, fetchTester := none,
    fetchApp := none,
    group := { findBetaTester := ASCResult.ok [], createBetaTester := ASCResult.ok () },
    memberExists := true, rolesMissing := false, addRolesOk := true,
    notifyOk := true, updateRequestOk := true, markPrimaryOk := true,
    triggerMessageId := 9, cache := fun _ => none,
    fetchMsg := fun i => { msgId := i }, fanoutOk := true }

/-- Rejection environment of the C1 witness. -/
def c1RejectionEnv : RejectionEnv :=
  { validChannel := true, emojiIsRejection := true,
    fetchRequest := some c1ApprovedRequest, updateRequestOk := true,
    markPrimaryOk := true, triggerMessageId := 9, cache := fun _ => none,
    fetchMsg := fun i => { msgId := i }, fanoutOk := true }

/-- Request of the C2 environments: PENDING, store id 7, primary
notification id 50 (the triggering message), no further copies. -/
def c2PendingRequest : TestingRequest :=
  { reqId := 7, tester := "t1", testerDiscordId := "t1", app := "a1",
    serverId := "s1", notificationMessageId := some "50" }

/-- Tester of the C2 environments. -/
def c2Tester : Tester := { username := "u", discordId := "t1" }

/-- App of the C2 environments. -/
def c2App : App := { id := "a1", name := "App", betaGroupId := "g1" }

/-- Approval environment in which every platform and store call
succeeds and the distribution API reports missing credentials. -/
def c2EnvApiKey : ApprovalEnv :=
  { validChannel := true, emojiIsApproval := true,
    fetchRequest := some c2PendingRequest, fetchTester := some c2Tester,
    fetchApp := some c2App,
    group := { findBetaTester := ASCResult.err ASCError.apiKeyNotSet,
               createBetaTester := ASCResult.ok () },
    memberExists := true, rolesMissing := true, addRolesOk := true,
    notifyOk := true, updateRequestOk := true, markPrimaryOk := true,
    triggerMessageId := 50, cache := fun _ => none,
    fetchMsg := fun i => { msgId := i }, fanoutOk := true }

/-- The C2 approval environment with a generic distribution failure. -/
def c2EnvGeneric : ApprovalEnv :=
  { c2EnvApiKey with
      group := { findBetaTester := ASCResult.err (ASCError.generic "boom"),
                 createBetaTester := ASCResult.ok () } }

/-- C2 counterexample: the claim says a missing-credentials
distribution failure stops the whole approval with no role grant, no
tester notification, no status persistence and no message marking.
Evaluating the approval handler with the distribution API reporting
missing credentials shows the failure is reported and the approval then
continues to completion: the roles are granted, the tester is notified,
the APPROVED status is persisted and the message is marked
(reaction_roles.py:792-801 falls through the `except` block without
re-raising). -/
theorem C2_api_key_error_does_not_stop_approval :
    handle_role_approval c2EnvApiKey =
      ([Effect.channelSend apiKeyNotSetMsg, Effect.addRoles,
        Effect.dmSend approvalDmMsg,
        Effect.updateRequest 7 RequestStatus.APPROVED,
        Effect.addReaction 50 "✅"], HRes.ok ()) := by
  rfl

/-- C2 (amended): of the three distinguished distribution-API failures
raised by the add-tester-to-group step, only the invalid-tester-
attribute failure stops the approval without raising (after a channel
report); the missing-credentials and missing-beta-group failures are
reported to the channel but the approval continues to completion (role
grant, tester notification, status persistence, message marking); every
other distribution-API failure is silently swallowed and the approval
likewise continues. -/
theorem C2_distribution_error_split (env : ApprovalEnv)
    (req : TestingRequest) (tr : Tester) (app : App)
    (h1 : env.validChannel = true) (h2 : env.emojiIsApproval = true)
    (h3 : env.fetchRequest = some req)
    (h4 : req.status = RequestStatus.PENDING)
    (h5 : env.fetchTester = some tr) (h6 : env.fetchApp = some app)
    (h7 : env.memberExists = true) (h8 : env.rolesMissing = true)
    (h9 : env.addRolesOk = true) (h10 : env.notifyOk = true)
    (h11 : env.updateRequestOk = true) (h12 : env.markPrimaryOk = true)
    (h13 : req.furtherNotificationMessageIds = [])
    (h14 : strToNat (req.notificationMessageId.getD "0") =
      env.triggerMessageId) :
    (env.group.findBetaTester = ASCResult.err ASCError.apiKeyNotSet →
      handle_role_approval env =
        ([Effect.channelSend apiKeyNotSetMsg, Effect.addRoles,
          Effect.dmSend approvalDmMsg,
          Effect.updateRequest req.reqId RequestStatus.APPROVED,
          Effect.addReaction env.triggerMessageId "✅"], HRes.ok ())) ∧
    (env.group.findBetaTester = ASCResult.err ASCError.betaGroupNotSet →
      handle_role_approval env =
        ([Effect.channelSend betaGroupNotSetMsg, Effect.addRoles,
          Effect.dmSend approvalDmMsg,
          Effect.updateRequest req.reqId RequestStatus.APPROVED,
          Effect.addReaction env.triggerMessageId "✅"], HRes.ok ())) ∧
    (∀ d, env.group.findBetaTester =
        ASCResult.err (ASCError.invalidAttribute d) →
      handle_role_approval env =
        ([Effect.channelSend invalidAttributeMsg], HRes.ok ())) ∧
    (∀ m, env.group.findBetaTester = ASCResult.err (ASCError.generic m) →
      handle_role_approval env =
        ([Effect.addRoles, Effect.dmSend approvalDmMsg,
          Effect.updateRequest req.reqId RequestStatus.APPROVED,
          Effect.addReaction env.triggerMessageId "✅"], HRes.ok ())) := by
  refine ⟨fun h => ?_, fun h => ?_, fun d h => ?_, fun m h => ?_⟩ <;>
    simp [handle_role_approval, add_tester_to_group, fanout_step,
      get_other_request_messages_ids, TestingRequest.approved,
      h1, h2, h3, h4, h5, h6, h7, h8, h9, h10, h11, h12, h13, h14, h]

/-- Witness for C2_distribution_error_split at the generic-failure
environment: the failure is swallowed and the approval completes. -/
theorem C2_distribution_error_split_witness :
    handle_role_approval c2EnvGeneric =
      ([Effect.addRoles, Effect.dmSend approvalDmMsg,
        Effect.updateRequest 7 RequestStatus.APPROVED,
        Effect.addReaction 50 "✅"], HRes.ok ()) :=
  (C2_distribution_error_split c2EnvGeneric c2PendingRequest c2Tester c2App
    rfl rfl rfl rfl rfl rfl rfl rfl rfl rfl rfl rfl rfl rfl).2.2.2 "boom" rfl

/-- Witness for C1_no_cross_transitions at concrete environments. -/
theorem C1_no_cross_transitions_witness :
    handle_role_approval c1ApprovalEnv =
      ([Effect.channelSend previouslyRejectedMsg], HRes.ok ()) ∧
    handle_role_rejection c1RejectionEnv =
      ([Effect.channelSend previouslyApprovedMsg], HRes.ok true) :=
  C1_no_cross_transitions c1ApprovalEnv c1RejectedRequest rfl rfl rfl rfl
    c1RejectionEnv c1ApprovedRequest rfl rfl rfl rfl

/-- C10: a member-leave event posts an exit notification only when the
guild has a configured exit channel, the leaving user has at least one
approved non-removed request and the channel resolves; when posted, the
notification's id is appended to the tester's leave-message ids and the
tester is persisted, and a persistence failure is reported to the same
channel instead of raised. -/
theorem C10_member_leave_notification (env : MemberRemoveEnv)
    (store : Store) (t : Tester)
    (ht : find_tester store env.userId = some t) :
    (env.exitChannelId = none →
      on_raw_member_remove env store = (store, [], HRes.ok ())) ∧
    (∀ cid, env.exitChannelId = some cid →
      list_approved_requests store env.userId = [] →
      on_raw_member_remove env store = (store, [], HRes.ok ())) ∧
    (∀ cid, env.exitChannelId = some cid →
      env.channelResolvable cid = false →
      on_raw_member_remove env store = (store, [], HRes.ok ())) ∧
    (∀ cid, env.exitChannelId = some cid →
      list_approved_requests store env.userId ≠ [] →
      env.channelResolvable cid = true → env.upsertOk = true →
      (on_raw_member_remove env store).2.1 = [Effect.exitNotifSend cid] ∧
      (on_raw_member_remove env store).2.2 = HRes.ok () ∧
      find_tester (on_raw_member_remove env store).1 env.userId =
        some { t with
            id := t.id,
            leaveMessageIds := t.leaveMessageIds ++ [env.newExitMsgId] }) ∧
    (∀ cid, env.exitChannelId = some cid →
      list_approved_requests store env.userId ≠ [] →
      env.channelResolvable cid = true → env.upsertOk = false →
      on_raw_member_remove env store =
        (store, [Effect.exitNotifSend cid,
          Effect.channelSend failedUpdateLeaveMsg], HRes.ok ())) := by
  have htid : t.discordId = env.userId := by
    have := List.find?_some ht
    simpa using this
  refine ⟨fun h => ?_, fun cid h h2 => ?_, fun cid h h2 => ?_,
    fun cid h h2 h3 h4 => ?_, fun cid h h2 h3 h4 => ?_⟩
  · simp [on_raw_member_remove, h]
  · simp [on_raw_member_remove, h, h2]
  · by_cases hz : list_approved_requests store env.userId = []
    · simp [on_raw_member_remove, h, hz]
    · simp [on_raw_member_remove, h, h2, List.length_eq_zero.not.mpr hz]
  · refine ⟨?_, ?_, ?_⟩ <;>
      simp [on_raw_member_remove, h, h2, h3, h4, ht,
        List.length_eq_zero.not.mpr h2, find_tester_after_upsert store
          env.userId t { t with leaveMessageIds := t.leaveMessageIds ++
            [env.newExitMsgId] } ht htid]
  · simp [on_raw_member_remove, h, h2, h3, h4, ht,
      List.length_eq_zero.not.mpr h2]

/-- Store, tester and environment of the C10 witness. -/
def c10Tester : Tester := { username := "u", discordId := "d1" }

/-- Approved request of the C10 witness store. -/
def c10Request : TestingRequest :=
  { reqId := 0, tester := "d1", testerDiscordId := "d1", app := "a1",
    serverId := "s1", status := RequestStatus.APPROVED }

/-- Store of the C10 witness. -/
def c10Store : Store := { testers := [c10Tester], requests := [c10Request] }

/-- Environment of the C10 witness. -/
def c10Env : MemberRemoveEnv :=
  { userId := "d1", exitChannelId := some "c9",
    channelResolvable := fun _ => true, appName := fun a => a,
    newExitMsgId := "m77", upsertOk := true }

/-- The creation flow when no active request exists: a new PENDING
request is stored and the notification is sent for it. -/
theorem creation_flow_new_request (env : CreationEnv) (store : Store)
    (t : Tester) (e : String)
    (ht : find_tester store env.userId = some t) (he : t.email = some e)
    (hwf : ∀ r ∈ store.requests, r.reqId < store.requests.length)
    (happ : env.appIds ≠ [])
    (dc : String) (hdc : env.defaultApprovalsChannel = some dc)
    (hdcr : env.channelResolvable dc = true)
    (hnone : list_requests store env.userId env.appIds = []) :
    (handle_role_reaction_creation env store).2.1 =
        [Effect.notifSend store.requests.length false] ∧
    (handle_role_reaction_creation env store).2.2 = HRes.ok () ∧
    (∃ rq, list_requests (handle_role_reaction_creation env store).1
        env.userId env.appIds = [rq] ∧ rq.status = RequestStatus.PENDING) ∧
    (handle_role_reaction_creation env store).1.requests.length =
      store.requests.length + 1 := by
  have happmem : env.appIds.headD "" ∈ env.appIds := headD_mem _ _ happ
  unfold handle_role_reaction_creation
  rw [ht]
  dsimp only
  rw [creation_upsert_step env store t ht]
  dsimp only
  rw [list_requests_set_testers, hnone]
  have hnone2 := hnone
  simp [list_requests] at hnone2
  simp at happmem
  have hnone3 : List.filter (fun r => decide (r.testerDiscordId = env.userId) &&
      (decide (r.app ∈ env.appIds) && !r.removed)) store.requests = [] := by
    apply List.filter_eq_nil_iff.mpr
    intro a ha
    simp only [Bool.and_eq_true, decide_eq_true_eq, Bool.not_eq_true', not_and]
    intro h1 h2
    simp [hnone2 a ha h1 h2]
  refine ⟨?_, ?_, ?_, ?_⟩ <;>
    simp [add_request, email_gate, he, send_request_notification_message,
      resolve_notification_channel, hdc, hdcr, update_request, list_requests,
      List.filter_append, happmem, hnone2, hnone3,
      map_no_collision _ _ _ (fun q hq => Nat.ne_of_lt (hwf q hq))]

/-- The creation flow when a listed request is REJECTED: a silent
abort leaving the request records untouched. -/
theorem creation_flow_rejected_abort (env : CreationEnv) (store : Store)
    (t : Tester)
    (ht : find_tester store env.userId = some t)
    (hrej : (list_requests store env.userId env.appIds).any
      (fun r => r.status = RequestStatus.REJECTED) = true) :
    (handle_role_reaction_creation env store).2.1 = [] ∧
    (handle_role_reaction_creation env store).2.2 = HRes.ok () ∧
    (handle_role_reaction_creation env store).1.requests = store.requests := by
  have hne : ¬ (list_requests store env.userId env.appIds).length = 0 := by
    intro h0
    rw [List.length_eq_zero] at h0
    rw [h0] at hrej
    simp at hrej
  unfold handle_role_reaction_creation
  rw [ht]
  dsimp only
  rw [creation_upsert_step env store t ht]
  dsimp only
  rw [list_requests_set_testers]
  rw [if_neg hne, if_pos hrej]
  exact ⟨rfl, rfl, rfl⟩

/-- The creation flow when active requests exist and none is REJECTED:
the oldest is reused for the notification and no request is added. -/
theorem creation_flow_reuse_oldest (env : CreationEnv) (store : Store)
    (t : Tester) (e : String) (c : String)
    (ht : find_tester store env.userId = some t) (he : t.email = some e)
    (hne : list_requests store env.userId env.appIds ≠ [])
    (hnorej : (list_requests store env.userId env.appIds).any
      (fun r => r.status = RequestStatus.REJECTED) = false)
    (hchan : resolve_notification_channel env
      ((list_requests store env.userId env.appIds).headD dummyRequest) =
      ChannelRes.found c) :
    (handle_role_reaction_creation env store).2.1 =
      [Effect.notifSend
        ((list_requests store env.userId env.appIds).headD dummyRequest).reqId
        ((list_requests store env.userId env.appIds).headD
          dummyRequest).notificationMessageId.isSome] ∧
    (handle_role_reaction_creation env store).2.2 = HRes.ok () ∧
    (handle_role_reaction_creation env store).1.requests.length =
      store.requests.length := by
  have hlen : ¬ (list_requests store env.userId env.appIds).length = 0 := by
    intro h0
    exact hne (List.length_eq_zero.mp h0)
  unfold handle_role_reaction_creation
  rw [ht]
  dsimp only
  rw [creation_upsert_step env store t ht]
  dsimp only
  rw [list_requests_set_testers]
  rw [if_neg hlen, if_neg (by simp [hnorej])]
  unfold email_gate
  rw [he]
  rw [if_neg (by simp)]
  unfold send_request_notification_message
  rw [hchan]
  dsimp only
  refine ⟨rfl, rfl, ?_⟩
  exact update_request_length _ _

/-- C3: on the request-creation path, after listing the tester's
non-removed requests for the reacted role's app set — given a tester
with an email on file and a resolvable approval channel — an empty
listing yields exactly one new stored PENDING request and its
notification; a listing containing a REJECTED request yields a silent
abort with no new request and no notification; any other non-empty
listing is answered by reusing the oldest listed request for the
notification, with no new request created. -/
theorem C3_request_creation_branching (env : CreationEnv) (store : Store)
    (t : Tester) (e : String)
    (ht : find_tester store env.userId = some t) (he : t.email = some e)
    (hwf : ∀ r ∈ store.requests, r.reqId < store.requests.length)
    (happ : env.appIds ≠ []) :
    (∀ dc, env.defaultApprovalsChannel = some dc →
      env.channelResolvable dc = true →
      list_requests store env.userId env.appIds = [] →
      (handle_role_reaction_creation env store).2.1 =
        [Effect.notifSend store.requests.length false] ∧
      (handle_role_reaction_creation env store).2.2 = HRes.ok () ∧
      (∃ rq, list_requests (handle_role_reaction_creation env store).1
          env.userId env.appIds = [rq] ∧
        rq.status = RequestStatus.PENDING) ∧
      (handle_role_reaction_creation env store).1.requests.length =
        store.requests.length + 1) ∧
    ((list_requests store env.userId env.appIds).any
        (fun r => r.status = RequestStatus.REJECTED) = true →
      (handle_role_reaction_creation env store).2.1 = [] ∧
      (handle_role_reaction_creation env store).2.2 = HRes.ok () ∧
      (handle_role_reaction_creation env store).1.requests =
        store.requests) ∧
    (∀ c, list_requests store env.userId env.appIds ≠ [] →
      (list_requests store env.userId env.appIds).any
        (fun r => r.status = RequestStatus.REJECTED) = false →
      resolve_notification_channel env
        ((list_requests store env.userId env.appIds).headD dummyRequest) =
        ChannelRes.found c →
      (handle_role_reaction_creation env store).2.1 =
        [Effect.notifSend
          ((list_requests store env.userId env.appIds).headD
            dummyRequest).reqId
          ((list_requests store env.userId env.appIds).headD
            dummyRequest).notificationMessageId.isSome] ∧
      (handle_role_reaction_creation env store).2.2 = HRes.ok () ∧
      (handle_role_reaction_creation env store).1.requests.length =
        store.requests.length) :=
  ⟨fun dc hdc hdcr hnone =>
      creation_flow_new_request env store t e ht he hwf happ dc hdc hdcr hnone,
    fun hrej => creation_flow_rejected_abort env store t ht hrej,
    fun c hne hnorej hchan =>
      creation_flow_reuse_oldest env store t e c ht he hne hnorej hchan⟩

/-- Tester of the C3 witness. -/
def c3Tester : Tester :=
  { username := "u", discordId := "d1", email := some "e1" }

/-- Store of the C3 witness. -/
def c3Store : Store := { testers := [c3Tester], requests := [] }

/-- Environment of the C3 witness. -/
def c3Env : CreationEnv :=
  { userId := "d1", username := "u", appIds := ["a1"], serverId := "s1",
    now := 100, fetchUserMessage := fun _ => 0, newRegMsgId := "r1",
    newNotifMsgId := "n1", defaultApprovalsChannel := some "ch",
    channelResolvable := fun _ => true }

/-- Witness for C3_request_creation_branching: the empty-listing case
creates one PENDING request and sends its notification. -/
theorem C3_request_creation_branching_witness :
    (handle_role_reaction_creation c3Env c3Store).2.1 =
      [Effect.notifSend 0 false] ∧
    (handle_role_reaction_creation c3Env c3Store).2.2 = HRes.ok () ∧
    (∃ rq, list_requests (handle_role_reaction_creation c3Env c3Store).1
        "d1" ["a1"] = [rq] ∧ rq.status = RequestStatus.PENDING) ∧
    (handle_role_reaction_creation c3Env c3Store).1.requests.length = 1 :=
  (C3_request_creation_branching c3Env c3Store c3Tester "e1" rfl rfl
    (by simp [c3Store]) (by simp [c3Env])).1 "ch" rfl rfl rfl

/-- The creation flow on a tester with no email whose registration
prompt is younger than 30 minutes: a silent no-op. -/
theorem creation_flow_recent_prompt (env : CreationEnv) (store : Store)
    (t : Tester) (rmid : String)
    (ht : find_tester store env.userId = some t) (he : t.email = none)
    (hnorej : (list_requests store env.userId env.appIds).any
      (fun r => r.status = RequestStatus.REJECTED) = false)
    (hr : t.registrationMessageId = some rmid)
    (hrec : env.now < env.fetchUserMessage rmid + 30) :
    (handle_role_reaction_creation env store).2.1 = [] ∧
    (handle_role_reaction_creation env store).2.2 = HRes.ok () := by
  unfold handle_role_reaction_creation
  rw [ht]
  dsimp only
  rw [creation_upsert_step env store t ht]
  dsimp only
  rw [list_requests_set_testers]
  by_cases hlen : (list_requests store env.userId env.appIds).length = 0
  · rw [if_pos hlen]
    simp [email_gate, he, hr, hrec, add_request]
  · rw [if_neg hlen, if_neg (by simp [hnorej])]
    simp [email_gate, he, hr, hrec]

/-- The creation flow on a tester with no email and no recent prompt:
exactly one registration prompt, whose id is persisted on the tester,
and no other effect; every stored request is either pre-existing or
PENDING. -/
theorem creation_flow_sends_prompt (env : CreationEnv) (store : Store)
    (t : Tester)
    (ht : find_tester store env.userId = some t) (he : t.email = none)
    (hnorej : (list_requests store env.userId env.appIds).any
      (fun r => r.status = RequestStatus.REJECTED) = false)
    (hstale : ∀ rmid, t.registrationMessageId = some rmid →
      env.fetchUserMessage rmid + 30 ≤ env.now) :
    (handle_role_reaction_creation env store).2.1 =
      [Effect.sendRegistration env.userId] ∧
    (handle_role_reaction_creation env store).2.2 = HRes.ok () ∧
    (∃ t2, find_tester (handle_role_reaction_creation env store).1
        env.userId = some t2 ∧
      t2.registrationMessageId = some env.newRegMsgId ∧
      t2.email = none ∧ t2.discordId = env.userId) ∧
    (∀ r ∈ (handle_role_reaction_creation env store).1.requests,
      r ∈ store.requests ∨ r.status = RequestStatus.PENDING) := by
  have htid : t.discordId = env.userId := by
    have := List.find?_some ht
    simpa using this
  unfold handle_role_reaction_creation
  rw [ht]
  dsimp only
  rw [creation_upsert_step env store t ht]
  dsimp only
  rw [list_requests_set_testers]
  have hfind1 : List.find? (fun v => v.discordId = env.userId)
      (store.testers.map (fun v =>
        if v.discordId = env.userId then
          { t with username := env.username, discordId := env.userId }
        else v)) =
      some { t with username := env.username, discordId := env.userId } :=
    find_map_replace store.testers env.userId
      { t with username := env.username, discordId := env.userId } rfl t ht
  have hnotrec : (match t.registrationMessageId with
      | some rmid => decide (env.now < env.fetchUserMessage rmid + 30)
      | none => false) = false := by
    rcases hreg : t.registrationMessageId with _ | rmid
    · rfl
    · simp [Nat.not_lt.mpr (hstale rmid hreg)]
  by_cases hlen : (list_requests store env.userId env.appIds).length = 0
  · rw [if_pos hlen]
    dsimp only [add_request]
    rw [email_gate_sends env _ _
      { t with username := env.username, discordId := env.userId } _ he
      hnotrec { t with username := env.username, discordId := env.userId }
      hfind1]
    refine ⟨by simp, rfl, ?_, ?_⟩
    · exact ⟨_, find_map_replace _ env.userId _ rfl _ hfind1, rfl, he, rfl⟩
    · intro r hr
      rcases List.mem_append.mp hr with h | h
      · exact Or.inl h
      · right
        simp only [List.mem_singleton] at h
        rw [h]
  · rw [if_neg hlen, if_neg (by simp [hnorej])]
    rw [email_gate_sends env _ _
      { t with username := env.username, discordId := env.userId } _ he
      hnotrec { t with username := env.username, discordId := env.userId }
      hfind1]
    refine ⟨by simp, rfl, ?_, ?_⟩
    · exact ⟨_, find_map_replace _ env.userId _ rfl _ hfind1, rfl, he, rfl⟩
    · intro r hr
      exact Or.inl hr

/-- C7: on the creation path, a tester with no email on file whose
registration prompt is younger than 30 minutes causes a silent abort;
otherwise exactly one registration prompt is sent, its message id is
persisted on the tester record, and the flow aborts before any
approval-channel notification; consequently two reactions within 30
minutes yield exactly one prompt. -/
theorem C7_registration_antispam (env env2 : CreationEnv) (store : Store)
    (t : Tester)
    (ht : find_tester store env.userId = some t) (he : t.email = none)
    (hnorej : (list_requests store env.userId env.appIds).any
      (fun r => r.status = RequestStatus.REJECTED) = false) :
    (∀ rmid, t.registrationMessageId = some rmid →
      env.now < env.fetchUserMessage rmid + 30 →
      (handle_role_reaction_creation env store).2.1 = [] ∧
      (handle_role_reaction_creation env store).2.2 = HRes.ok ()) ∧
    ((∀ rmid, t.registrationMessageId = some rmid →
        env.fetchUserMessage rmid + 30 ≤ env.now) →
      (handle_role_reaction_creation env store).2.1 =
        [Effect.sendRegistration env.userId] ∧
      (handle_role_reaction_creation env store).2.2 = HRes.ok () ∧
      (∃ t2, find_tester (handle_role_reaction_creation env store).1
          env.userId = some t2 ∧
        t2.registrationMessageId = some env.newRegMsgId ∧
        t2.email = none ∧ t2.discordId = env.userId) ∧
      (∀ i b, Effect.notifSend i b ∉
        (handle_role_reaction_creation env store).2.1)) ∧
    (t.registrationMessageId = none →
      env2.userId = env.userId → env2.appIds = env.appIds →
      env2.now < env2.fetchUserMessage env.newRegMsgId + 30 →
      ((handle_role_reaction_creation env store).2.1 ++
          (handle_role_reaction_creation env2
            (handle_role_reaction_creation env store).1).2.1).count
        (Effect.sendRegistration env.userId) = 1) := by
  refine ⟨fun rmid hr hrec => creation_flow_recent_prompt env store t rmid
    ht he hnorej hr hrec, fun hstale => ?_, fun hreg hu2 ha2 hrec2 => ?_⟩
  · obtain ⟨h1, h2, h3, _⟩ :=
      creation_flow_sends_prompt env store t ht he hnorej hstale
    refine ⟨h1, h2, h3, ?_⟩
    intro i b
    rw [h1]
    simp
  · obtain ⟨h1, h2, ⟨t2, hft2, hreg2, hem2, hdid2⟩, hreqs⟩ :=
      creation_flow_sends_prompt env store t ht he hnorej
        (fun rmid h => absurd h (by simp [hreg]))
    have ht2 : find_tester (handle_role_reaction_creation env store).1
        env2.userId = some t2 := by rw [hu2]; exact hft2
    have hnorej2 : (list_requests (handle_role_reaction_creation env store).1
        env2.userId env2.appIds).any
        (fun r => r.status = RequestStatus.REJECTED) = false := by
      rw [hu2, ha2]
      rw [List.any_eq_false]
      intro r hrmem
      rw [list_requests] at hrmem
      rcases List.mem_filter.mp hrmem with ⟨hrin, hrp⟩
      rcases hreqs r hrin with hold | hpend
      · have hrold : r ∈ list_requests store env.userId env.appIds := by
          rw [list_requests]
          exact List.mem_filter.mpr ⟨hold, hrp⟩
        have := List.any_eq_false.mp hnorej r hrold
        simpa using this
      · simp [hpend]
    obtain ⟨hh1, _⟩ := creation_flow_recent_prompt env2
      (handle_role_reaction_creation env store).1 t2 env.newRegMsgId ht2 hem2
      hnorej2 hreg2 hrec2
    rw [h1, hh1]
    simp

/-- Tester of the C7 witness: no email, no prompt on file. -/
def c7Tester : Tester := { username := "u", discordId := "d1" }

/-- Store of the C7 witness. -/
def c7Store : Store := { testers := [c7Tester], requests := [] }

/-- First-reaction environment of the C7 witness. -/
def c7Env1 : CreationEnv :=
  { userId := "d1", username := "u", appIds := ["a1"], serverId := "s1",
    now := 100, fetchUserMessage := fun _ => 0, newRegMsgId := "r1",
    newNotifMsgId := "n1", defaultApprovalsChannel := some "ch",
    channelResolvable := fun _ => true }

/-- Second-reaction environment of the C7 witness, 20 minutes later,
finding the first prompt's timestamp. -/
def c7Env2 : CreationEnv :=
  { c7Env1 with now := 120, fetchUserMessage := fun _ => 100 }

/-- Witness for C7_registration_antispam: two reactions 20 minutes
apart yield exactly one registration prompt. -/
theorem C7_registration_antispam_witness :
    ((handle_role_reaction_creation c7Env1 c7Store).2.1 ++
        (handle_role_reaction_creation c7Env2
          (handle_role_reaction_creation c7Env1 c7Store).1).2.1).count
      (Effect.sendRegistration "d1") = 1 :=
  (C7_registration_antispam c7Env1 c7Env2 c7Store c7Tester rfl rfl
    (by simp [c7Store, list_requests])).2.2 rfl rfl rfl (by decide)

/-- The first of two serialized creation-flow runs for an unseen
tester: one tester record is appended (then refreshed with the
registration-prompt id) and one PENDING request is appended. -/
theorem creation_flow_first_run (env1 : CreationEnv) (store : Store)
    (hane : env1.appIds ≠ [])
    (hta : ∀ u ∈ store.testers, u.discordId ≠ env1.userId)
    (hra : ∀ r ∈ store.requests, r.testerDiscordId ≠ env1.userId) :
    handle_role_reaction_creation env1 store =
      ({ testers :=
          (store.testers ++ [{ id := some env1.userId, username := env1.username, discordId := env1.userId : Tester }]).map
            (fun v => if v.discordId = env1.userId then { id := some env1.userId, username := env1.username, discordId := env1.userId, registrationMessageId := some env1.newRegMsgId : Tester } else v),
          requests := store.requests ++ [{ reqId := store.requests.length, tester := env1.userId, testerDiscordId := env1.userId, app := env1.appIds.headD "", serverId := env1.serverId : TestingRequest }] },
        [Effect.sendRegistration env1.userId], HRes.ok ()) := by
  have hfnone : find_tester store env1.userId = none := by
    unfold find_tester
    rw [List.find?_eq_none]
    intro x hx
    simpa using hta x hx
  have hempty : list_requests store env1.userId env1.appIds = [] := by
    rw [list_requests, List.filter_eq_nil_iff]
    intro r hr
    simp [hra r hr]
  have hffound : (store.testers ++ [{ id := some env1.userId, username := env1.username, discordId := env1.userId : Tester }]).find? (fun v => v.discordId = env1.userId) = some { id := some env1.userId, username := env1.username, discordId := env1.userId : Tester } := by
    rw [List.find?_append]
    rw [show store.testers.find? (fun v => v.discordId = env1.userId) = none
      from by
        rw [List.find?_eq_none]
        intro x hx
        simpa using hta x hx]
    simp
  unfold handle_role_reaction_creation
  rw [hfnone]
  dsimp only
  rw [creation_upsert_step_new env1 store hfnone]
  dsimp only
  rw [list_requests_set_testers, hempty]
  dsimp only [List.length_nil, add_request]
  rw [if_pos rfl]
  rw [email_gate_sends env1 _ _ { id := some env1.userId, username := env1.username, discordId := env1.userId : Tester } _ rfl rfl { id := some env1.userId, username := env1.username, discordId := env1.userId : Tester } hffound]
  simp

/-- A creation-flow run that finds the stored tester and exactly one
PENDING listed request preserves the per-id tester count and the
request records. -/
theorem creation_flow_second_run (env2 : CreationEnv) (s : Store)
    (B : Tester) (Q : TestingRequest) (rmid : String)
    (hfB : find_tester s env2.userId = some B)
    (hBe : B.email = none)
    (hBr : B.registrationMessageId = some rmid)
    (hlist : list_requests s env2.userId env2.appIds = [Q])
    (hQ : Q.status = RequestStatus.PENDING) :
    ((handle_role_reaction_creation env2 s).1.testers.filter
      (fun u => u.discordId = env2.userId)).length =
      (s.testers.filter (fun u => u.discordId = env2.userId)).length ∧
    (handle_role_reaction_creation env2 s).1.requests = s.requests := by
  have hfB2 : s.testers.find? (fun v => v.discordId = env2.userId) = some B :=
    hfB
  unfold handle_role_reaction_creation
  rw [hfB]
  dsimp only
  rw [upsert_tester_found s
    { B with username := env2.username, discordId := env2.userId } B hfB]
  dsimp only
  rw [list_requests_set_testers, hlist]
  rw [if_neg (by simp)]
  rw [if_neg (by simp [hQ])]
  by_cases hb : env2.now < env2.fetchUserMessage rmid + 30
  · rw [email_gate_recent env2 _
      { B with username := env2.username, discordId := env2.userId } _
      rmid hBe hBr hb]
    constructor
    · exact filter_discordId_map_replace s.testers env2.userId _ rfl
    · rfl
  · rw [email_gate_sends env2 _ _
      { B with username := env2.username, discordId := env2.userId } _ hBe
      (by rw [hBr]; simp [hb])
      { B with username := env2.username, discordId := env2.userId }
      (find_map_replace s.testers env2.userId
        { B with username := env2.username, discordId := env2.userId }
        rfl B hfB2)]
    constructor
    · rw [filter_discordId_map_replace _ env2.userId _ rfl]
      exact filter_discordId_map_replace s.testers env2.userId _ rfl
    · rfl

/-- C9: two serialized runs of the lock-guarded creation section for
the same acting user and app set, starting from a store with no tester
record and no request for that user, leave exactly one tester record
and exactly one request — a PENDING one — for that user.  The
per-actor lock makes this serialized composition the only possible
execution of two racing reactions. -/
theorem C9_no_duplicate_records (env1 env2 : CreationEnv) (store : Store)
    (hu : env2.userId = env1.userId) (ha : env2.appIds = env1.appIds)
    (hane : env1.appIds ≠ [])
    (hta : ∀ u ∈ store.testers, u.discordId ≠ env1.userId)
    (hra : ∀ r ∈ store.requests, r.testerDiscordId ≠ env1.userId) :
    (((handle_role_reaction_creation env2
        (handle_role_reaction_creation env1 store).1).1.testers.filter
      (fun u => u.discordId = env1.userId)).length = 1) ∧
    (∃ rq, (handle_role_reaction_creation env2
        (handle_role_reaction_creation env1 store).1).1.requests.filter
      (fun r => r.testerDiscordId = env1.userId) = [rq] ∧
      rq.status = RequestStatus.PENDING) := by
  have hfstore : store.testers.find? (fun v => v.discordId = env1.userId) =
      none := by
    rw [List.find?_eq_none]
    intro x hx
    simpa using hta x hx
  have hffound : (store.testers ++ [{ id := some env1.userId, username := env1.username, discordId := env1.userId : Tester }]).find? (fun v => v.discordId = env1.userId) = some { id := some env1.userId, username := env1.username, discordId := env1.userId : Tester } := by
    rw [List.find?_append, hfstore]
    simp
  rw [creation_flow_first_run env1 store hane hta hra]
  dsimp only
  have hfS1 : find_tester { testers := (store.testers ++ [{ id := some env1.userId, username := env1.username, discordId := env1.userId : Tester }]).map (fun v => if v.discordId = env1.userId then { id := some env1.userId, username := env1.username, discordId := env1.userId, registrationMessageId := some env1.newRegMsgId : Tester } else v), requests := store.requests ++ [{ reqId := store.requests.length, tester := env1.userId, testerDiscordId := env1.userId, app := env1.appIds.headD "", serverId := env1.serverId : TestingRequest }] : Store } env2.userId = some { id := some env1.userId, username := env1.username, discordId := env1.userId, registrationMessageId := some env1.newRegMsgId : Tester } := by
    rw [hu]
    exact find_map_replace _ env1.userId _ rfl _ hffound
  have hlistS1 : list_requests { testers := (store.testers ++ [{ id := some env1.userId, username := env1.username, discordId := env1.userId : Tester }]).map (fun v => if v.discordId = env1.userId then { id := some env1.userId, username := env1.username, discordId := env1.userId, registrationMessageId := some env1.newRegMsgId : Tester } else v), requests := store.requests ++ [{ reqId := store.requests.length, tester := env1.userId, testerDiscordId := env1.userId, app := env1.appIds.headD "", serverId := env1.serverId : TestingRequest }] : Store } env2.userId env2.appIds = [{ reqId := store.requests.length, tester := env1.userId, testerDiscordId := env1.userId, app := env1.appIds.headD "", serverId := env1.serverId : TestingRequest }] := by
    rw [hu, ha, list_requests]
    dsimp only
    rw [List.filter_append]
    rw [show store.requests.filter (fun r => decide (r.testerDiscordId = env1.userId ∧ r.app ∈ env1.appIds ∧ r.removed = false)) = [] from by
      rw [List.filter_eq_nil_iff]
      intro r hr
      simp [hra r hr]]
    have hmem : env1.appIds.head?.getD "" ∈ env1.appIds := by
      have := headD_mem env1.appIds "" hane
      simpa using this
    simp [hmem]
  obtain ⟨hcnt, hreq⟩ := creation_flow_second_run env2 _ _ _ env1.newRegMsgId
    hfS1 rfl rfl hlistS1 rfl
  rw [hu] at hcnt
  constructor
  · rw [hcnt]
    rw [filter_discordId_map_replace _ env1.userId _ rfl]
    rw [List.filter_append]
    rw [show store.testers.filter (fun u => decide (u.discordId = env1.userId)) = [] from by
      rw [List.filter_eq_nil_iff]
      intro x hx
      simpa using hta x hx]
    simp
  · rw [hreq]
    dsimp only
    rw [List.filter_append]
    rw [show store.requests.filter (fun r => decide (r.testerDiscordId = env1.userId)) = [] from by
      rw [List.filter_eq_nil_iff]
      intro r hr
      simpa using hra r hr]
    simp

/-- First-reaction environment of the C9 witness. -/
def c9Env1 : CreationEnv :=
  { userId := "d1", username := "u", appIds := ["a1"], serverId := "s1",
    now := 100, fetchUserMessage := fun _ => 0, newRegMsgId := "r1",
    newNotifMsgId := "n1", defaultApprovalsChannel := some "ch",
    channelResolvable := fun _ => true }

/-- Second-reaction environment of the C9 witness. -/
def c9Env2 : CreationEnv :=
  { c9Env1 with now := 101, newRegMsgId := "r2", newNotifMsgId := "n2" }

/-- Witness for C9_no_duplicate_records at an empty store. -/
theorem C9_no_duplicate_records_witness :
    (((handle_role_reaction_creation c9Env2
        (handle_role_reaction_creation c9Env1
          { testers := [], requests := [] }).1).1.testers.filter
      (fun u => u.discordId = "d1")).length = 1) ∧
    (∃ rq, (handle_role_reaction_creation c9Env2
        (handle_role_reaction_creation c9Env1
          { testers := [], requests := [] }).1).1.requests.filter
      (fun r => r.testerDiscordId = "d1") = [rq] ∧
      rq.status = RequestStatus.PENDING) :=
  C9_no_duplicate_records c9Env1 c9Env2 { testers := [], requests := [] }
    rfl rfl (by simp [c9Env1]) (by simp) (by simp)

/-- Witness for C10_member_leave_notification: the posted path appends
the leave-message id and persists the tester. -/
theorem C10_member_leave_notification_witness :
    (on_raw_member_remove c10Env c10Store).2.1 =
      [Effect.exitNotifSend "c9"] ∧
    (on_raw_member_remove c10Env c10Store).2.2 = HRes.ok () ∧
    find_tester (on_raw_member_remove c10Env c10Store).1 "d1" =
      some { c10Tester with
          id := c10Tester.id,
          leaveMessageIds := c10Tester.leaveMessageIds ++ ["m77"] } :=
  (C10_member_leave_notification c10Env c10Store c10Tester rfl).2.2.2.1 "c9"
    rfl (by decide) rfl rfl

end TLDMotto
